import Mathlib

/-!
Verification of the Illarion world-tick / entity-AI / proximity core
(`src/World.cpp`, `src/WorldIMPLTalk.cpp`) against its specification.

The C++ source is shallowly embedded: member functions become Lean
functions, the mutable world members (`timeStart`, `usedAP`, `ap`,
registries, `newMonsters`, `SpawnList`) become explicit state records,
and the external collaborators that are not part of the two source
files (character registry range queries, the weapon data table, the
database layer, the Lua script hooks) are passed in as explicit
parameters or are modelled from the specification, as marked on each
definition.
-/

namespace Illarion

/-- Tile coordinates, embedding the `position` struct (x, y, z). -/
structure position where
  x : Int
  y : Int
  z : Int
deriving DecidableEq

/-- Query shape used by registry range queries: planar radius and
vertical reach, embedding the `Range` struct of the source.  In the
source a default-constructed `Range` is used with only `radius`
assigned at some call sites; the spec fixes the default vertical reach
("vertical reach 0 unless noted"). -/
structure Range where
  radius : Int
  zRadius : Int
deriving DecidableEq

/-- Modelled from the spec: the registry range predicate
(`findAllInRange(position, Range)` of the Spatial Entity Registry,
whose implementation is not among the source files).  A position is in
range of a center when each planar offset is within `radius` and the
vertical offset is within `zRadius` (L-infinity, inclusive boundary
per the spec's "a listener exactly at the radius boundary does receive
it"). -/
def inRangeOf (r : Range) (origin target : position) : Bool :=
  decide (|target.x - origin.x| ≤ r.radius) &&
  decide (|target.y - origin.y| ≤ r.radius) &&
  decide (|target.z - origin.z| ≤ r.zRadius)

/-! ## Tick governor (`World::turntheworld`, World.cpp lines 177-200)

The world constructor stores `timeStart = starttime * 1000` (whole
seconds times 1000, World.cpp line 100) and `usedAP = 0`.  The
granularity constant `MIN_AP_UPDATE` lives in `tuningConstants.hpp`,
which is not among the source files, so it stays a parameter `g`
here. -/

/-- The governor's persistent counters: world start timestamp in
milliseconds and the cumulative consumed action-point counter. -/
structure TickState where
  timeStart : Nat
  usedAP : Int
deriving DecidableEq

/-- The three phase functions the governor drives, in source order. -/
inductive Phase where
  | players
  | monsters
  | npcs
deriving DecidableEq

/-- The action-point budget computed by `World::turntheworld`:
`ap = timeNow/MIN_AP_UPDATE - timeStart/MIN_AP_UPDATE - usedAP`
(World.cpp line 181), with C integer division on the nonnegative
millisecond clocks and a signed result. -/
def computeAP (g : Nat) (s : TickState) (timeNow : Nat) : Int :=
  ((timeNow / g : Nat) : Int) - ((s.timeStart / g : Nat) : Int) - s.usedAP

/-- `World::checkMonsters` decrements the shared `ap` member before
granting points to monsters: `if (ap > 1) { --ap; }` (World.cpp lines
345-347).  The decremented value is the budget seen by the monster
phase and, afterwards, by the NPC phase. -/
def monsterPhaseAp (ap : Int) : Int :=
  if ap > 1 then ap - 1 else ap

/-- One governor fire (`World::turntheworld`): recompute `ap`; if it is
positive, add it to `usedAP` and run the player, monster and NPC phases
in that order.  The returned list records which phases ran and the
value of the shared `ap` member each phase used to grant points
(`increaseActionPoints(ap)`), reflecting the monster phase's decrement
of the shared member. -/
def turntheworld (g : Nat) (s : TickState) (timeNow : Nat) :
    TickState × List (Phase × Int) :=
  let ap := computeAP g s timeNow
  if ap > 0 then
    ({ s with usedAP := s.usedAP + ap },
     [(Phase.players, ap), (Phase.monsters, monsterPhaseAp ap),
      (Phase.npcs, monsterPhaseAp ap)])
  else
    (s, [])

/-! ## Characters and registries -/

/-- The three entity kinds (`Character::character_type` as far as the
source files use it). -/
inductive CharKind where
  | player
  | npc
  | monster
deriving DecidableEq

/-- The character data the two source files read: identity, position,
alive flag, equipped tool item ids (weapon-range lookup), active spoken
language, and — used only by the spec-side model of target selection —
an allegiance tag.  Per-kind registries hold these records. -/
structure Character where
  id : Nat
  pos : position
  alive : Bool
  ctype : CharKind
  rightTool : Nat
  leftTool : Nat
  activeLanguage : Nat
  allegiance : Nat
deriving DecidableEq

/-- Modelled from the spec: `findAllInRange(position, Range)` of the
Spatial Entity Registry, alive-only variant
(`findAllAliveCharactersInRangeOf` in the source; the registry
implementation is not among the source files). -/
def findAllAliveCharactersInRangeOf (chars : List Character)
    (origin : position) (r : Range) : List Character :=
  chars.filter (fun c => c.alive && inRangeOf r origin c.pos)

/-- Modelled from the spec: as `findAllAliveCharactersInRangeOf` but
without the alive filter (`findAllCharactersInRangeOf` in the
source). -/
def findAllCharactersInRangeOf (chars : List Character)
    (origin : position) (r : Range) : List Character :=
  chars.filter (fun c => inRangeOf r origin c.pos)

/-- `World::getTargetsInRange` (World.cpp lines 628-644): build a
`Range` with the given planar radius and `zRadius = 0`, collect all
alive players in range, then all alive monsters in range that do not
stand exactly at the query position. -/
def getTargetsInRange (players monsters : List Character)
    (pos : position) (radius : Int) : List Character :=
  let range : Range := { radius := radius, zRadius := 0 }
  let ps := findAllAliveCharactersInRangeOf players pos range
  let ms := findAllAliveCharactersInRangeOf monsters pos range
  ps ++ ms.filter (fun m => !(decide (pos = m.pos)))

/-- The combat target query as the spec's words describe it: "live
players plus live monsters of a different allegiance at a different
position".  Stated for comparison with `getTargetsInRange`, which is
the embedding of the source. -/
def getTargetsInRangeSpec (querier : Character)
    (players monsters : List Character) (pos : position) (radius : Int) :
    List Character :=
  let range : Range := { radius := radius, zRadius := 0 }
  let ps := findAllAliveCharactersInRangeOf players pos range
  let ms := findAllAliveCharactersInRangeOf monsters pos range
  ps ++ ms.filter (fun m =>
    decide (m.allegiance ≠ querier.allegiance) && !(decide (pos = m.pos)))

/-! ## Monster wander with spawn-boundary mirroring
(`World::checkMonsters`, World.cpp lines 459-536) -/

/-- The eight step directions (`direction` enum, values 0-7 drawn by
`Random::uniform(0,7)`). -/
inductive direction where
  | dir_north
  | dir_northeast
  | dir_east
  | dir_southeast
  | dir_south
  | dir_southwest
  | dir_west
  | dir_northwest
deriving DecidableEq

/-- Modelled from the spec: x-displacement of one step in a compass
direction (`position::move` is not among the source files; east
increases x). -/
def dirDx (d : direction) : Int :=
  match d with
  | direction.dir_north => 0
  | direction.dir_northeast => 1
  | direction.dir_east => 1
  | direction.dir_southeast => 1
  | direction.dir_south => 0
  | direction.dir_southwest => -1
  | direction.dir_west => -1
  | direction.dir_northwest => -1

/-- Modelled from the spec: y-displacement of one step in a compass
direction (north decreases y on the tile grid). -/
def dirDy (d : direction) : Int :=
  match d with
  | direction.dir_north => -1
  | direction.dir_northeast => -1
  | direction.dir_east => 0
  | direction.dir_southeast => 1
  | direction.dir_south => 1
  | direction.dir_southwest => 1
  | direction.dir_west => 0
  | direction.dir_northwest => -1

/-- Modelled from the spec: `position::move(dir)`, one tile step. -/
def movePos (p : position) (d : direction) : position :=
  { p with x := p.x + dirDx d, y := p.y + dirDy d }

/-- The first mirroring switch (World.cpp lines 473-502): when the
candidate x-offset from the spawn center overflows, the direction's
x-component is reflected; `dir_north`/`dir_south` fall to `default`
and stay unchanged. -/
def mirrorX (d : direction) : direction :=
  match d with
  | direction.dir_northeast => direction.dir_northwest
  | direction.dir_east => direction.dir_west
  | direction.dir_southeast => direction.dir_southwest
  | direction.dir_southwest => direction.dir_southeast
  | direction.dir_west => direction.dir_east
  | direction.dir_northwest => direction.dir_northeast
  | d => d

/-- The second mirroring switch (World.cpp lines 504-533): when the
candidate y-offset overflows, the direction's y-component is
reflected; `dir_east`/`dir_west` fall to `default` and stay
unchanged. -/
def mirrorY (d : direction) : direction :=
  match d with
  | direction.dir_north => direction.dir_south
  | direction.dir_northeast => direction.dir_southeast
  | direction.dir_southeast => direction.dir_northeast
  | direction.dir_south => direction.dir_north
  | direction.dir_southwest => direction.dir_northwest
  | direction.dir_northwest => direction.dir_southwest
  | d => d

/-- The spawn-boundary correction applied to a random wander step
(World.cpp lines 466-534): compute the candidate position
`newpos = pos.move(dir)`, the offsets `xoffs = spawnX - newpos.x`,
`yoffs = spawnY - newpos.y`, mirror the x-component when
`abs(xoffs) > range`, then — on the possibly already mirrored
direction — mirror the y-component when `abs(yoffs) > range`.  Both
offsets come from the original candidate position. -/
def wanderDir (spawnX spawnY range : Int) (pos : position)
    (dir : direction) : direction :=
  let newpos := movePos pos dir
  let xoffs := spawnX - newpos.x
  let yoffs := spawnY - newpos.y
  let dir1 := if |xoffs| > range then mirrorX dir else dir
  if |yoffs| > range then mirrorY dir1 else dir1

/-! ## Monster attack range (`World::checkMonsters`,
World.cpp lines 368-377 and 544-553) -/

/-- The monster attack-range computation: `range = 1`, overwritten by
the weapon data of the right-tool item when the table has an entry for
it (`Data::WeaponItems.exists(itr.getId())`), else by the left-tool
item's entry.  The weapon data table is not among the source files and
is passed as a partial map `wd` from item id to `Range` field
(modelled from the spec: `weaponRange(itemId) -> integer`, absent
entries imply melee range 1). -/
def weaponRangeOf (wd : Nat → Option Nat) (m : Character) : Nat :=
  match wd m.rightTool with
  | some r => r
  | none =>
    match wd m.leftTool with
    | some r => r
    | none => 1

/-! ## Spawn-point loading (`World::initRespawns`,
World.cpp lines 278-332) -/

/-- One row of the `spawnpoint` table as `initRespawns` reads it. -/
structure SpawnRow where
  spp_id : Nat
  spp_x : Int
  spp_y : Int
  spp_z : Int
  spp_range : Int
  spp_spawnrange : Nat
  spp_minspawntime : Nat
  spp_maxspawntime : Nat
  spp_spawnall : Bool
deriving DecidableEq

/-- A spawn-point definition as constructed by `initRespawns`. -/
structure SpawnPoint where
  pos : position
  range : Int
  spawnrange : Nat
  minspawntime : Nat
  maxspawntime : Nat
  spawnall : Bool
deriving DecidableEq

/-- The `SpawnPoint` constructed from one row (World.cpp lines
306-318). -/
def mkSpawnPoint (row : SpawnRow) : SpawnPoint :=
  { pos := { x := row.spp_x, y := row.spp_y, z := row.spp_z },
    range := row.spp_range,
    spawnrange := row.spp_spawnrange,
    minspawntime := row.spp_minspawntime,
    maxspawntime := row.spp_maxspawntime,
    spawnall := row.spp_spawnall }

/-- `World::initRespawns`: the spawn list is cleared before the query
runs; on an empty result the function returns `false` (list stays
empty), on a successful non-empty result every row is appended and
`true` is returned, and a thrown data-access fault is caught, logged
and turned into `false` (list stays as cleared).  The database layer
is not among the source files; modelled from the spec contract
(`loadSpawnPoints()` fails with a recoverable "no data" signal or a
fatal "access fault" signal), the query outcome is an `Except` value.
Returns the pair (return value, resulting spawn list). -/
def initRespawns (queryResult : Except String (List SpawnRow)) :
    Bool × List SpawnPoint :=
  match queryResult with
  | Except.error _ => (false, [])
  | Except.ok rows =>
    if rows.isEmpty then
      (false, [])
    else
      (true, rows.map mkSpawnPoint)

/-! ## Monster-phase registry mutation (`World::checkMonsters`,
World.cpp lines 334-343, 349-624)

The per-monster AI body mutates the visited monster (points, movement,
targeting) but never inserts into the registry; dead monsters are
collected during the scan and erased afterwards; monsters buffered in
`newMonsters` are inserted only at the end of the phase.  The scan's
per-monster mutation is abstracted as an update function `upd` applied
to each alive monster. -/

/-- Registry-level state of the monster phase: the monster registry
and the `newMonsters` buffer filled by the Spawn Manager. -/
structure MonsterPhaseState where
  monsters : List Character
  newMonsters : List Character
deriving DecidableEq

/-- The spawn step at the top of `checkMonsters` (World.cpp lines
334-343): when the spawn timer fires and spawning is enabled, each
spawn point may create monsters, which go into the `newMonsters`
buffer (via `createMonster`), never directly into the registry. -/
def spawnStep (spawned : List Character) (s : MonsterPhaseState) :
    MonsterPhaseState :=
  { s with newMonsters := s.newMonsters ++ spawned }

/-- The registry scan (World.cpp lines 351-603): every alive monster
is processed in place by the AI body `upd`; monsters found dead are
collected into `deadMonsters` by id.  Registry membership is not
changed.  Returns the scanned state and the collected dead ids. -/
def monsterScanStep (upd : Character → Character) (s : MonsterPhaseState) :
    MonsterPhaseState × List Nat :=
  ({ s with
     monsters := s.monsters.map (fun m => if m.alive then upd m else m) },
   (s.monsters.filter (fun m => !m.alive)).map (fun m => m.id))

/-- The deferred dead-removal pass (World.cpp lines 605-607):
`killMonster(id)` erases each collected monster from the registry. -/
def killDeadStep (deadIds : List Nat) (s : MonsterPhaseState) :
    MonsterPhaseState :=
  { s with monsters := s.monsters.filter (fun m => !(deadIds.contains m.id)) }

/-- The end-of-phase commit (World.cpp lines 609-624): every buffered
monster is inserted into the registry and the buffer is cleared. -/
def commitNewStep (s : MonsterPhaseState) : MonsterPhaseState :=
  { monsters := s.monsters ++ s.newMonsters, newMonsters := [] }

/-- The monster phase at registry granularity: spawn step, scan,
deferred dead removal, end-of-phase commit of buffered monsters. -/
def checkMonstersRegistry (spawned : List Character)
    (upd : Character → Character) (s : MonsterPhaseState) :
    MonsterPhaseState :=
  let s0 := spawnStep spawned s
  let scanned := monsterScanStep upd s0
  commitNewStep (killDeadStep scanned.2 scanned.1)

/-! ## Proximity text broadcast (`World::sendMessageToAllCharsInRange`,
WorldIMPLTalk.cpp lines 146-201) -/

/-- The interaction kinds (`Character::talk_type`). -/
inductive talk_type where
  | tt_say
  | tt_whisper
  | tt_yell
deriving DecidableEq

/-- `World::getTalkRange` (WorldIMPLTalk.cpp lines 113-132): say
radius 14, whisper radius 2, yell radius 30.  Only the whisper case
assigns `zRadius` in the source; the default-constructed vertical
reach is 0 per the spec ("vertical reach 0 unless noted"). -/
def getTalkRange (tt : talk_type) : Range :=
  match tt with
  | talk_type.tt_say => { radius := 14, zRadius := 0 }
  | talk_type.tt_whisper => { radius := 2, zRadius := 0 }
  | talk_type.tt_yell => { radius := 30, zRadius := 0 }

/-- `World::languagePrefix` (WorldIMPLTalk.cpp lines 44-70): the
language tag glued before spoken text; slots 8 and 9 are commented out
in the source and fall to the final else. -/
def langTag (language : Nat) : String :=
  if language = 0 then ""
  else if language = 1 then "[Human] "
  else if language = 2 then "[Dwarf] "
  else if language = 3 then "[Elf] "
  else if language = 4 then "[Lizard] "
  else if language = 5 then "[Orc] "
  else if language = 6 then "[Halfing] "
  else if language = 7 then "[Ancient] "
  else ""

/-- The external collaborators of the talk path that are not among the
source files, passed explicitly: the optional player chat script
(`playerChatScript`, with `hasChatScript` standing for the handle
being non-null), per-player language selection (`Player::nls`), and
language-skill-based garbling (`Character::alterSpokenMessage`,
`Character::getLanguageSkill`).  Modelled from the spec: "a
chat-filter script may transform the outgoing text before and
per-recipient after range resolution"; "recipients who do not share
the speaker's language receive a garbled/altered rendering
proportional to their skill in that language (delegated to the
entity)". -/
structure TalkHooks where
  hasChatScript : Bool
  beforeSendText : Character → talk_type → String → String
  beforeReceiveText : Character → talk_type → String → Character → String
  nls : Character → String → String → String
  alterSpokenMessage : Character → String → Nat → String
  languageSkill : Character → Nat → Nat

/-- One iteration of the player delivery loop (WorldIMPLTalk.cpp lines
166-187).  The accumulator carries the deliveries made so far and the
mutable `tempMessage` local, whose value persists across loop
iterations in the source.  Non-self recipients of a non-action message
get the chat-script transform (when the text is shared and a script
exists) or their `nls` choice, tagged with the speaker's language
tag; the speaker themself and action messages take the else branch,
where `tempMessage` is refreshed only when the two texts differ. -/
def playerRecvStep (hooks : TalkHooks) (german english : String)
    (is_same is_action : Bool) (tt : talk_type) (cc : Character)
    (acc : List (Character × String) × String) (player : Character) :
    List (Character × String) × String :=
  let tag := langTag cc.activeLanguage
  if !is_action && player.id ≠ cc.id then
    let temp :=
      if is_same && hooks.hasChatScript then
        hooks.beforeReceiveText player tt acc.2 cc
      else
        hooks.nls player german english
    (acc.1 ++ [(player, tag ++ temp)], temp)
  else
    let temp := if !is_same then hooks.nls player german english else acc.2
    if is_action then
      (acc.1 ++ [(player, temp)], temp)
    else
      (acc.1 ++ [(player, tag ++ temp)], temp)

/-- `World::sendMessageToAllCharsInRange` (WorldIMPLTalk.cpp lines
146-201), returning the list of deliveries (recipient, text) it
performs via `receiveText`.  `is_same` embeds the source's address
comparison of the two text arguments (the one-string overload at line
253 passes the same object, making it true).  Players within talk
range are served by the accumulating loop; then, only when the
speaker is a player, every NPC within range receives the garbled
English text behind the language tag and every monster within range
receives the raw English text. -/
def sendMessageToAllCharsInRange (hooks : TalkHooks)
    (players npcs monsters : List Character) (german english : String)
    (is_same : Bool) (tt : talk_type) (cc : Character) :
    List (Character × String) :=
  let range := getTalkRange tt
  let is_action := german.take 3 = "#me"
  let temp0 :=
    if !is_action && cc.ctype = CharKind.player && is_same &&
        hooks.hasChatScript then
      hooks.beforeSendText cc tt german
    else ""
  let prs := findAllCharactersInRangeOf players cc.pos range
  let playerPart :=
    (prs.foldl (playerRecvStep hooks german english is_same is_action tt cc)
      ([], temp0)).1
  if cc.ctype = CharKind.player then
    let tag := langTag cc.activeLanguage
    let npcPart :=
      (findAllCharactersInRangeOf npcs cc.pos range).map (fun n =>
        (n, tag ++ hooks.alterSpokenMessage n english
              (hooks.languageSkill n cc.activeLanguage)))
    let monPart :=
      (findAllCharactersInRangeOf monsters cc.pos range).map (fun m =>
        (m, english))
    playerPart ++ npcPart ++ monPart
  else
    playerPart

/-! ## Concrete instances used to evaluate the definitions -/

/-- A baseline character: an alive monster at the origin with empty
tool slots, common language, allegiance tag 0. -/
def baseChar : Character :=
  { id := 0, pos := { x := 0, y := 0, z := 0 }, alive := true,
    ctype := CharKind.monster, rightTool := 0, leftTool := 0,
    activeLanguage := 0, allegiance := 0 }

/-- A querying monster at the origin, allegiance 4. -/
def qM : Character := { baseChar with id := 1, allegiance := 4 }

/-- A monster of the same allegiance as `qM`, one tile east. -/
def friendM : Character :=
  { baseChar with id := 2, pos := position.mk 1 0 0, allegiance := 4 }

/-- Trivial instances of the external talk collaborators: no chat
script, the script and garbling transforms are identities, `nls`
yields the German text. -/
def hooks0 : TalkHooks :=
  { hasChatScript := false,
    beforeSendText := fun _ _ s => s,
    beforeReceiveText := fun _ _ s _ => s,
    nls := fun _ g _ => g,
    alterSpokenMessage := fun _ s _ => s,
    languageSkill := fun _ _ => 0 }

/-- A monster speaker at the origin. -/
def srcM : Character := { baseChar with id := 5 }

/-- An NPC one tile east of the origin. -/
def npcW : Character :=
  { baseChar with id := 9, ctype := CharKind.npc, pos := position.mk 1 0 0 }

/-- A player one tile east of the origin. -/
def pW : Character :=
  { baseChar with id := 7, ctype := CharKind.player, pos := position.mk 1 0 0 }

/-- An alive player at the origin. -/
def cW : Character := { baseChar with id := 11, ctype := CharKind.player }

/-- A registry monster with id 1. -/
def mOld : Character := { baseChar with id := 1 }

/-- A freshly spawned monster with id 2. -/
def mNew : Character := { baseChar with id := 2 }

/-- A monster-phase state holding only `mOld`. -/
def s7 : MonsterPhaseState := { monsters := [mOld], newMonsters := [] }

/-- A weapon table with a single entry: item 3 has range 7. -/
def wdW : Nat → Option Nat := fun n => if n = 3 then some 7 else none

/-- A monster holding item 3 in the right tool slot. -/
def mW : Character := { baseChar with id := 13, rightTool := 3 }

/-! ## Theorems -/

/-- Helper: subtracting a multiple of the divisor commutes with
truncating division. -/
theorem div_sub_add_div_of_dvd (g a b : Nat) (hg : 0 < g) (hdvd : g ∣ b)
    (hle : b ≤ a) : (a - b) / g + b / g = a / g := by
  obtain ⟨c, rfl⟩ := hdvd
  rw [Nat.mul_div_cancel_left _ hg]
  conv_rhs => rw [← Nat.sub_add_cancel hle]
  rw [Nat.add_mul_div_left _ _ hg]

/-- C1: on every governor fire the computed budget equals
floor(elapsed-ms / granularity) − consumed (with elapsed-ms = now −
world start); when positive, the consumed counter grows by exactly
that value and the phases fire; when non-positive, nothing is applied.
Stated for any granularity dividing the millisecond-per-second factor
of the constructor-set start timestamp `timeStart = starttime * 1000`
(World.cpp line 100); the value of `MIN_AP_UPDATE` itself lives in a
header outside the source files. -/
theorem C1_governor_budget (g k timeNow : Nat) (s : TickState)
    (hg : 0 < g) (hdvd : g ∣ 1000) (hstart : s.timeStart = k * 1000)
    (hle : s.timeStart ≤ timeNow) :
    computeAP g s timeNow =
      (((timeNow - s.timeStart) / g : Nat) : Int) - s.usedAP ∧
    (0 < computeAP g s timeNow →
      (turntheworld g s timeNow).1.usedAP =
        s.usedAP + computeAP g s timeNow ∧
      (turntheworld g s timeNow).2 ≠ []) ∧
    (computeAP g s timeNow ≤ 0 → turntheworld g s timeNow = (s, [])) := by
  refine ⟨?_, fun h => ?_, fun h => ?_⟩
  · have hdvd2 : g ∣ s.timeStart := hstart ▸ Dvd.dvd.mul_left hdvd k
    have hkey := div_sub_add_div_of_dvd g timeNow s.timeStart hg hdvd2 hle
    unfold computeAP
    omega
  · constructor
    · simp only [turntheworld]
      rw [if_pos h]
    · simp only [turntheworld]
      rw [if_pos h]
      simp
  · simp only [turntheworld]
    rw [if_neg (by omega)]

/-- Witness for C1 at granularity 100 ms, start at second 2, clock at
2350 ms, one point already consumed. -/
theorem C1_governor_budget_witness :
    computeAP 100 { timeStart := 2000, usedAP := 1 } 2350 =
      (((2350 - 2000) / 100 : Nat) : Int) - 1 ∧
    (turntheworld 100 { timeStart := 2000, usedAP := 1 } 2350).1.usedAP =
      1 + computeAP 100 { timeStart := 2000, usedAP := 1 } 2350 ∧
    (turntheworld 100 { timeStart := 2000, usedAP := 1 } 2350).2 ≠ [] := by
  have h := C1_governor_budget 100 2 2350 { timeStart := 2000, usedAP := 1 }
    (by decide) ⟨10, rfl⟩ rfl (by decide)
  exact ⟨h.1, (h.2.1 (by decide)).1, (h.2.1 (by decide)).2⟩

/-- C2 fails as stated: at budget 2 the monster phase decrements the
shared counter (`if (ap > 1) --ap;`, World.cpp lines 345-347), so the
monster and NPC phases grant 1 while the player phase granted 2. -/
theorem C2_counterexample :
    computeAP 100 { timeStart := 0, usedAP := 0 } 200 = 2 ∧
    (turntheworld 100 { timeStart := 0, usedAP := 0 } 200).2 ≠
      [(Phase.players, 2), (Phase.monsters, 2), (Phase.npcs, 2)] := by
  decide

/-- C2 amended: with a positive budget the phases run in the fixed
order player, monster, NPC; the player phase receives the full budget,
while the monster and NPC phases receive the budget less one whenever
it exceeds one (and the full budget of 1 otherwise). -/
theorem C2_phase_budgets (g : Nat) (s : TickState) (timeNow : Nat) :
    (2 ≤ computeAP g s timeNow →
      (turntheworld g s timeNow).2 =
        [(Phase.players, computeAP g s timeNow),
         (Phase.monsters, computeAP g s timeNow - 1),
         (Phase.npcs, computeAP g s timeNow - 1)]) ∧
    (computeAP g s timeNow = 1 →
      (turntheworld g s timeNow).2 =
        [(Phase.players, 1), (Phase.monsters, 1), (Phase.npcs, 1)]) := by
  constructor
  · intro h
    simp only [turntheworld]
    rw [if_pos (by omega)]
    simp only [monsterPhaseAp]
    rw [if_pos (by omega)]
  · intro h
    simp only [turntheworld]
    rw [h]
    norm_num [monsterPhaseAp]

/-- Witness for the amended C2 at budget 2. -/
theorem C2_phase_budgets_witness :
    (turntheworld 100 { timeStart := 0, usedAP := 0 } 200).2 =
      [(Phase.players, computeAP 100 { timeStart := 0, usedAP := 0 } 200),
       (Phase.monsters, computeAP 100 { timeStart := 0, usedAP := 0 } 200 - 1),
       (Phase.npcs, computeAP 100 { timeStart := 0, usedAP := 0 } 200 - 1)] :=
  (C2_phase_budgets 100 { timeStart := 0, usedAP := 0 } 200).1 (by decide)

/-- C8: immediately after a successful tick, firing the governor again
at the same wall-clock instant computes a non-positive budget, runs no
phase and leaves the consumed counter (and the whole tick state)
unchanged. -/
theorem C8_tick_idempotent (g : Nat) (s : TickState) (timeNow : Nat)
    (h : 0 < computeAP g s timeNow) :
    turntheworld g (turntheworld g s timeNow).1 timeNow =
      ((turntheworld g s timeNow).1, []) := by
  have h1 : (turntheworld g s timeNow).1 =
      { s with usedAP := s.usedAP + computeAP g s timeNow } := by
    simp only [turntheworld]
    rw [if_pos h]
  rw [h1]
  have h2 : computeAP g
      { s with usedAP := s.usedAP + computeAP g s timeNow } timeNow = 0 := by
    simp only [computeAP]
    ring
  simp only [turntheworld, h2]
  rw [if_neg (by omega)]

/-- Witness for C8 at granularity 100 ms with one pending point. -/
theorem C8_tick_idempotent_witness :
    turntheworld 100 (turntheworld 100 { timeStart := 0, usedAP := 0 } 100).1
        100 =
      ((turntheworld 100 { timeStart := 0, usedAP := 0 } 100).1, []) :=
  C8_tick_idempotent 100 { timeStart := 0, usedAP := 0 } 100 (by decide)

/-- C3 fails as stated: `getTargetsInRange` applies no allegiance
filter (World.cpp lines 628-644), so a live monster of the same
allegiance as the querier, standing one tile away, is returned even
though the spec-worded query excludes it. -/
theorem C3_counterexample :
    getTargetsInRange [] [friendM] (position.mk 0 0 0) 1 = [friendM] ∧
    getTargetsInRangeSpec qM [] [friendM] (position.mk 0 0 0) 1 = [] := by
  decide

/-- C3 amended: the combat target query returns exactly the live
players within range together with the live monsters within range that
stand at a different position from the query position; no allegiance
comparison is made. -/
theorem C3_targets_characterization (players monsters : List Character)
    (pos : position) (radius : Int) (c : Character) :
    c ∈ getTargetsInRange players monsters pos radius ↔
      ((c ∈ players ∧ c.alive = true ∧
        inRangeOf { radius := radius, zRadius := 0 } pos c.pos = true) ∨
       (c ∈ monsters ∧ c.alive = true ∧
        inRangeOf { radius := radius, zRadius := 0 } pos c.pos = true ∧
        pos ≠ c.pos)) := by
  simp [getTargetsInRange, findAllAliveCharactersInRangeOf,
    List.mem_append, List.mem_filter, Bool.and_eq_true, decide_eq_true_eq,
    and_assoc]
  tauto

/-- C10: the combat target query fixes the vertical reach at 0, so
every returned target stands on the same z tile layer as the query
position, whatever the planar radius. -/
theorem C10_targets_same_z (players monsters : List Character)
    (pos : position) (radius : Int) (c : Character)
    (h : c ∈ getTargetsInRange players monsters pos radius) :
    c.pos.z = pos.z := by
  simp only [getTargetsInRange, findAllAliveCharactersInRangeOf,
    List.mem_append, List.mem_filter, Bool.and_eq_true] at h
  have hz : inRangeOf { radius := radius, zRadius := 0 } pos c.pos = true := by
    rcases h with h | h
    · exact h.2.2
    · exact h.1.2.2
  simp only [inRangeOf, Bool.and_eq_true, decide_eq_true_eq] at hz
  have h3 : |c.pos.z - pos.z| ≤ 0 := hz.2
  have h4 : (0 : Int) ≤ |c.pos.z - pos.z| := abs_nonneg _
  have h0 : c.pos.z - pos.z = 0 := abs_eq_zero.mp (le_antisymm h3 h4)
  omega

/-- Witness for C10: an alive player at the origin is a target of a
query at the origin and indeed shares its z layer. -/
theorem C10_targets_same_z_witness :
    cW.pos.z = (position.mk 0 0 0).z :=
  C10_targets_same_z [cW] [] (position.mk 0 0 0) 1 cW (by decide)

/-- C5: the random wander step's spawn-boundary correction reflects
the direction's x-component exactly when the candidate x-offset from
the spawn center exceeds the spawn radius, and, independently and
afterwards, reflects the y-component exactly when the candidate
y-offset (measured from the same original candidate position) exceeds
the radius; a direction with no component on the overflowing axis is
unchanged on that axis. -/
theorem C5_wander_mirroring (spawnX spawnY range : Int) (pos : position)
    (dir : direction) :
    dirDx (wanderDir spawnX spawnY range pos dir) =
      (if |spawnX - (movePos pos dir).x| > range
       then -(dirDx dir) else dirDx dir) ∧
    dirDy (wanderDir spawnX spawnY range pos dir) =
      (if |spawnY - (movePos pos dir).y| > range
       then -(dirDy dir) else dirDy dir) := by
  simp only [wanderDir]
  split_ifs <;> constructor <;> cases dir <;> decide

/-- C6: the spawn-point load clears the list first, so whenever it
returns failure the spawn list is empty; it fails on an empty result
set and it fails (after catching and logging) on a data-access fault,
leaving the list empty in both cases. -/
theorem C6_initRespawns_failure (q : Except String (List SpawnRow)) :
    ((initRespawns q).1 = false → (initRespawns q).2 = []) ∧
    (initRespawns (Except.ok []) = (false, [])) ∧
    (∀ e : String, initRespawns (Except.error e) = (false, [])) := by
  refine ⟨?_, rfl, fun e => rfl⟩
  cases q with
  | error e => intro _; rfl
  | ok rows =>
    intro h
    by_cases hr : rows.isEmpty
    · simp [initRespawns, hr]
    · simp [initRespawns, hr] at h

/-- Witness for C6: the empty result set yields failure with an empty
spawn list. -/
theorem C6_initRespawns_failure_witness :
    (initRespawns (Except.ok ([] : List SpawnRow))).2 = [] :=
  (C6_initRespawns_failure (Except.ok [])).1 (by decide)

/-- C9: the monster attack range is the weapon table's range for the
right-tool item when an entry exists, else the left-tool entry's
range, else the melee default 1. -/
theorem C9_attack_range (wd : Nat → Option Nat) (m : Character) (r : Nat) :
    (wd m.rightTool = some r → weaponRangeOf wd m = r) ∧
    (wd m.rightTool = none → wd m.leftTool = some r →
      weaponRangeOf wd m = r) ∧
    (wd m.rightTool = none → wd m.leftTool = none →
      weaponRangeOf wd m = 1) := by
  refine ⟨fun h => ?_, fun h1 h2 => ?_, fun h1 h2 => ?_⟩
  · simp [weaponRangeOf, h]
  · simp [weaponRangeOf, h1, h2]
  · simp [weaponRangeOf, h1, h2]

/-- Witness for C9: a monster holding weapon item 3 (table range 7) in
the right tool slot attacks at range 7. -/
theorem C9_attack_range_witness : weaponRangeOf wdW mW = 7 :=
  (C9_attack_range wdW mW 7).1 (by decide)

/-- C7: a monster sitting in the buffered-creation path (already in
the `newMonsters` buffer or created by the spawn step of this phase)
is in the registry right after the end-of-phase commit, and — given it
was not already registered — no monster with its id is in the registry
at any earlier point of the phase (after the scan, or after the dead
removal just before the commit). -/
theorem C7_buffered_commit (spawned : List Character)
    (upd : Character → Character) (s : MonsterPhaseState) (m : Character)
    (hupd : ∀ c, (upd c).id = c.id)
    (hm : m ∈ s.newMonsters ++ spawned)
    (hnot : ∀ c ∈ s.monsters, c.id ≠ m.id) :
    m ∈ (checkMonstersRegistry spawned upd s).monsters ∧
    (∀ c ∈ (monsterScanStep upd (spawnStep spawned s)).1.monsters,
      c.id ≠ m.id) ∧
    (∀ c ∈ (killDeadStep (monsterScanStep upd (spawnStep spawned s)).2
        (monsterScanStep upd (spawnStep spawned s)).1).monsters,
      c.id ≠ m.id) := by
  have hscan : ∀ c ∈ (monsterScanStep upd (spawnStep spawned s)).1.monsters,
      c.id ≠ m.id := by
    intro c hc
    simp only [monsterScanStep, spawnStep, List.mem_map] at hc
    obtain ⟨a, ha, rfl⟩ := hc
    by_cases halive : a.alive
    · simpa [halive, hupd a] using hnot a ha
    · simpa [halive] using hnot a ha
  refine ⟨?_, hscan, ?_⟩
  · simp only [checkMonstersRegistry, commitNewStep, killDeadStep,
      monsterScanStep, spawnStep]
    exact List.mem_append_right _ hm
  · intro c hc
    simp only [killDeadStep] at hc
    exact hscan c (List.mem_filter.mp hc).1

/-- Witness for C7: a freshly spawned monster (id 2) joins a registry
holding only id 1 exactly at the commit. -/
theorem C7_buffered_commit_witness :
    mNew ∈ (checkMonstersRegistry [mNew] (fun c => c) s7).monsters :=
  (C7_buffered_commit [mNew] (fun c => c) s7 mNew (fun _ => rfl)
    (by decide) (by decide)).1

/-- Helper: one player-loop iteration appends exactly one delivery,
addressed to the visited player. -/
theorem playerRecvStep_fst (hooks : TalkHooks) (german english : String)
    (is_same is_action : Bool) (tt : talk_type) (cc : Character)
    (acc : List (Character × String) × String) (p : Character) :
    ∃ s, (playerRecvStep hooks german english is_same is_action tt cc
      acc p).1 = acc.1 ++ [(p, s)] := by
  simp only [playerRecvStep]
  split_ifs <;> exact ⟨_, rfl⟩

/-- Helper: every delivery made by the player loop was already in the
accumulator or goes to a player of the visited list. -/
theorem playerLoop_recipients (hooks : TalkHooks) (german english : String)
    (is_same is_action : Bool) (tt : talk_type) (cc : Character) :
    ∀ (l : List Character) (acc : List (Character × String) × String)
      (d : Character × String),
      d ∈ (l.foldl (playerRecvStep hooks german english is_same is_action
        tt cc) acc).1 →
      d ∈ acc.1 ∨ d.1 ∈ l := by
  intro l
  induction l with
  | nil => exact fun acc d h => Or.inl h
  | cons p t ih =>
    intro acc d h
    rw [List.foldl_cons] at h
    rcases ih _ d h with h1 | h1
    · obtain ⟨s, hs⟩ := playerRecvStep_fst hooks german english is_same
        is_action tt cc acc p
      rw [hs] at h1
      rcases List.mem_append.mp h1 with h2 | h2
      · exact Or.inl h2
      · right
        rw [List.mem_singleton.mp h2]
        exact List.mem_cons_self p t
    · exact Or.inr (List.mem_cons_of_mem p h1)

/-- C4 fails as stated: the NPC and monster delivery loops are guarded
by the speaker being a player (WorldIMPLTalk.cpp line 189), so a
monster speaking next to an NPC delivers nothing at all, although the
NPC is within say range. -/
theorem C4_counterexample :
    inRangeOf (getTalkRange talk_type.tt_say) srcM.pos npcW.pos = true ∧
    sendMessageToAllCharsInRange hooks0 [] [npcW] [srcM] "hi" "hi" true
      talk_type.tt_say srcM = [] := by
  constructor
  · decide
  · rfl

/-- C4 amended: for a text broadcast whose source entity is not a
player, NPC and monster listeners receive nothing — every delivery of
the broadcast goes to a member of the player registry (the NPC and
monster fan-out runs only for player sources). -/
theorem C4_nonplayer_source (hooks : TalkHooks)
    (players npcs monsters : List Character) (german english : String)
    (is_same : Bool) (tt : talk_type) (cc : Character)
    (hcc : cc.ctype ≠ CharKind.player) (d : Character × String)
    (hd : d ∈ sendMessageToAllCharsInRange hooks players npcs monsters
      german english is_same tt cc) :
    d.1 ∈ players := by
  simp only [sendMessageToAllCharsInRange, if_neg hcc] at hd
  rcases playerLoop_recipients hooks german english is_same _ tt cc _ _ d
    hd with h | h
  · exact absurd h (List.not_mem_nil d)
  · exact (List.mem_filter.mp h).1

/-- Witness for the amended C4: a monster speaker's say reaches the
player one tile away, and that recipient is indeed drawn from the
player registry. -/
theorem C4_nonplayer_source_witness : pW ∈ [pW] :=
  C4_nonplayer_source hooks0 [pW] [] [] "hi" "hi" true talk_type.tt_say
    srcM (by decide) (pW, "hi") (by decide)

end Illarion
